import Mathlib

/-!
Verification development for the Personal Health SMS Bot (src/app.py).

The Python module is embedded shallowly:
* pure helpers (`parse_urgency_from_body`, `get_last_rows`) become Lean
  functions over `List Char` / `List (List String)`;
* the two Flask handlers (`android_webhook`, `trigger_daily_checkin`)
  become pure functions from an explicit environment (the responses of
  the Google Sheets store and the SMS relay, and the current local
  date/time) to a result constructor plus an effect record listing the
  SMS send attempts and the rows appended to the store;
* Python exceptions raised by the external services are modelled by
  boolean fields of the environment (`openThrows`, `readThrows`,
  `appendThrows`), since every `except` block in the source catches
  `Exception`.
-/

/-! ## Small string utilities (models of the Python string methods used) -/

/-- Model of Python `str.strip()`: drop whitespace from both ends. -/
def pyStrip (s : String) : String :=
  String.mk (((s.toList.dropWhile Char.isWhitespace).reverse.dropWhile
      Char.isWhitespace).reverse)

/-- Model of Python `str.lower()` on the ASCII range. -/
def pyLower (s : String) : String :=
  String.mk (s.toList.map Char.toLower)

/-- Containment of `needle` as a contiguous infix of the second list,
model of the Python `in` operator on strings. -/
def listHasInfix (needle : List Char) : List Char → Bool
  | [] => needle.isEmpty
  | c :: rest => List.isPrefixOf needle (c :: rest) || listHasInfix needle rest

/-- Model of Python `needle in hay` for strings. -/
def hasSubstr (hay needle : String) : Bool :=
  listHasInfix needle.toList hay.toList

/-! ## Urgency parsing (src/app.py, `parse_urgency_from_body`)

The source computes `re.findall(r. bsla ([1-9]|10) bsla ., body)` (where
`bsla` stands for the backslash-b word-boundary assertion) and returns
`int(matches[0])` if any match exists, else `None`.  The scan below walks
the character list left to right carrying one bit `pw` — whether the
previous character is a regex word character — and at each position tries
the alternatives of the pattern in the order the regex engine does:
first a single digit 1-9 followed by a boundary, then the two-character
token `10` followed by a boundary. -/

/-- Regex word character (the class behind the boundary assertion),
over the ASCII range the messages use: alphanumeric or underscore. -/
def isWordChar (c : Char) : Bool := c.isAlphanum || c == '_'

/-- The character class `[1-9]` of the urgency regex. -/
def isDigit19 (c : Char) : Bool := 49 ≤ c.toNat && c.toNat ≤ 57

/-- Word-boundary check after a candidate match: the next character is
absent or not a word character. -/
def headNonWord : List Char → Bool
  | [] => true
  | c :: _ => !isWordChar c

/-- After an initial `1`, does the rest start with `0` followed by a
word boundary (the `10` alternative of the pattern)? -/
def next0 : List Char → Bool
  | [] => false
  | c :: r2 => c == '0' && headNonWord r2

/-- Attempt of the pattern `([1-9]|10)` at the current position, given
that the character before the position has word-class `pw`; the leading
boundary assertion demands `pw = false` because every alternative starts
with a digit. -/
def headMatch (pw : Bool) (c : Char) (rest : List Char) : Option Nat :=
  if !pw && isDigit19 c && headNonWord rest then some (c.toNat - 48)
  else if !pw && (c == '1') && next0 rest then some 10
  else none

/-- Left-to-right scan for the first match of the urgency pattern. -/
def scanUrgency : Bool → List Char → Option Nat
  | _, [] => none
  | pw, c :: rest =>
    match headMatch pw c rest with
    | some v => some v
    | none => scanUrgency (isWordChar c) rest

/-- Embedding of `parse_urgency_from_body` (src/app.py lines 188-214):
first whole-number token 1..10 of the body, or `none`.  The Python `int`
result is modelled as `Nat`. -/
def parse_urgency_from_body (body : String) : Option Nat :=
  scanUrgency false body.toList

/-! ## Spec-side characterisation of urgency parsing

For the refinement claim about the parser, the following definitions
follow the specification text: a token is a whole number from 1 to 10
inclusive bounded by non-digit-word boundaries on both sides, and the
parser must return the value of the first (leftmost) such token. -/

/-- Character of a list at an index. -/
def nth : List Char → Nat → Option Char
  | [], _ => none
  | c :: _, 0 => some c
  | _ :: rest, n + 1 => nth rest n

/-- Does position `i` of the list hold a word character? Out-of-range
positions count as non-word. -/
def wordAt (l : List Char) (i : Nat) : Bool :=
  match nth l i with
  | some c => isWordChar c
  | none => false

/-- Boundary condition before position `i`: at the start of the text the
virtual preceding class is `pw`; elsewhere the preceding character must
not be a word character. -/
def prevOk (pw : Bool) (l : List Char) : Nat → Bool
  | 0 => !pw
  | j + 1 => !wordAt l j

/-- The character (if any) is a digit 1..9 whose numeric value is `v`. -/
def digitTok : Option Char → Nat → Bool
  | some c, v => isDigit19 c && (c.toNat - 48 == v)
  | none, _ => false

/-- A whole-number token of value `v` (1..10) starts at position `i` of
`l`, bounded by non-word boundaries on both sides; `pw` is the word-class
of the virtual character before the text (false for a real message). -/
def tokAt (pw : Bool) (l : List Char) (i v : Nat) : Bool :=
  if v == 10 then
    (nth l i == some '1') && (nth l (i + 1) == some '0') &&
      prevOk pw l i && !wordAt l (i + 2)
  else
    digitTok (nth l i) v && prevOk pw l i && !wordAt l (i + 1)

/-- Spec-side token predicate for a real message body: a standalone
whole-number token 1..10 at position `i` with value `v`. -/
def specTokenAt (l : List Char) (i v : Nat) : Bool := tokAt false l i v

/-! ## The store helpers (src/app.py) -/

/-- Embedding of `get_last_rows` (src/app.py lines 155-185).  A raised
exception inside `get_all_values` is modelled by `readThrows` and yields
`[]`, as the `except` block of the source does.  The slice
`all_values[-num_rows:]` keeps the last `num_rows` elements when
`num_rows > 0` and the whole list when `num_rows = 0`. -/
def get_last_rows (readThrows : Bool) (all_values : List (List String))
    (num_rows : Nat) : List (List String) :=
  if readThrows then []
  else if all_values.length ≤ 1 then []
  else if num_rows == 0 then all_values
  else all_values.drop (all_values.length - num_rows)

/-! ## Environment, effects and results of the handlers -/

/-- Responses of the external services during one request, plus the
current local clock readings used for a log row.  `dateIso` stands for
`datetime.now().date().isoformat()` (a YYYY-MM-DD string) and `timeStr`
for `now.time().strftime` with the hour-minute-second format. -/
structure Env where
  clientOk : Bool
  openThrows : Bool
  readThrows : Bool
  allValues : List (List String)
  sheetUrl : String
  appendThrows : Bool
  dateIso : String
  timeStr : String
deriving DecidableEq

/-- A cell of an appended row: the source appends three strings and one
Python `int` (the urgency). -/
inductive Cell where
  | str : String → Cell
  | num : Nat → Cell
deriving DecidableEq

/-- Observable side effects of one request: the texts handed to the SMS
relay, in order, and the rows appended to the store. -/
structure Effects where
  sms : List String
  appended : List (List Cell)
deriving DecidableEq

/-- Outcome of the webhook handler, one constructor per distinct JSON
response of the source. -/
inductive WebhookResult where
  | linkSent
  | summarySent
  | logged : Nat → WebhookResult
  | noUrgency
  | invalidPayload
  | failedLog
deriving DecidableEq

/-- HTTP status code of each webhook outcome, as returned by the
source's `jsonify` calls. -/
def statusCode : WebhookResult → Nat
  | .invalidPayload => 400
  | .failedLog => 500
  | _ => 200

/-- The incoming JSON payload: the two fields the handler looks at,
each possibly missing. -/
structure Payload where
  sender : Option String
  body : Option String
deriving DecidableEq

/-- Embedding of `append_to_google_sheets` (src/app.py lines 114-152):
fails when the client cannot be built or the append raises. -/
def append_to_google_sheets (env : Env) : Bool :=
  env.clientOk && !env.appendThrows

/-- Single-quote character, used by the Python `str()` rendering of a
list in the malformed-row branch of the summary formatter. -/
def sqChar : String := String.singleton (Char.ofNat 39)

/-- Python `str()` of a list of strings (rows shorter than 4 cells are
rendered this way by the source). -/
def pyRepr (row : List String) : String :=
  "[" ++ String.intercalate ", " (row.map (fun s => sqChar ++ s ++ sqChar)) ++ "]"

/-- One summary line, from the loop body at src/app.py lines 336-340. -/
def formatLine (i : Nat) (row : List String) : String :=
  if 4 ≤ row.length then
    toString i ++ ". " ++ row.getD 0 "" ++ " " ++ row.getD 1 "" ++
      " - Urgency: " ++ row.getD 3 ""
  else
    toString i ++ ". " ++ pyRepr row

/-- The enumerated summary lines (`enumerate(last_rows, 1)`). -/
def summaryLines : Nat → List (List String) → List String
  | _, [] => []
  | i, row :: rest => formatLine i row :: summaryLines (i + 1) rest

/-- Embedding of the `android_webhook` handler (src/app.py lines
263-378).  The three classification branches are tried in the source's
order on the lowercased stripped body; effects record every SMS send
attempt and every appended row. -/
def android_webhook (env : Env) (payload : Option Payload) :
    WebhookResult × Effects :=
  match payload with
  | none => (.invalidPayload, ⟨[], []⟩)
  | some p =>
    match p.sender, p.body with
    | some sender, some rawBody =>
      let body := pyStrip rawBody
      let bl := pyLower body
      if hasSubstr bl "link" then
        if env.clientOk then
          if env.openThrows then
            (.linkSent, ⟨["Failed to retrieve sheet link."], []⟩)
          else
            (.linkSent, ⟨["Health Log Link: " ++ env.sheetUrl], []⟩)
        else
          (.linkSent, ⟨["Failed to retrieve sheet link."], []⟩)
      else if hasSubstr bl "summary" then
        if env.clientOk then
          if env.openThrows then
            (.summarySent, ⟨["Failed to retrieve summary."], []⟩)
          else
            let lastRows := get_last_rows env.readThrows env.allValues 3
            if lastRows.isEmpty then
              (.summarySent, ⟨["No entries found in Health Log."], []⟩)
            else
              (.summarySent,
                ⟨["Last 3 entries:\n" ++
                    String.intercalate "\n" (summaryLines 1 lastRows)], []⟩)
        else
          (.summarySent, ⟨["Failed to retrieve summary."], []⟩)
      else
        match parse_urgency_from_body body with
        | some urgency =>
          if append_to_google_sheets env then
            (.logged urgency,
              ⟨["Logged for " ++ sender ++ ". ✅"],
                [[.str env.dateIso, .str env.timeStr, .str body, .num urgency]]⟩)
          else
            (.failedLog, ⟨["Failed to log entry for " ++ sender ++ ". ❌"], []⟩)
        | none =>
          (.noUrgency,
            ⟨["Please include a urgency rating (1-10) in your message."], []⟩)
    | _, _ => (.invalidPayload, ⟨[], []⟩)

/-! ## The daily check-in trigger (src/app.py, `trigger_daily_checkin`) -/

/-- The fixed daily prompt sent by the trigger endpoint. -/
def checkinMessage : String :=
  "How were your symptoms today? Rate urgency (1-10) and describe."

/-- Outcome of the trigger endpoint. -/
inductive TriggerResult where
  | triggered
  | unauthorized
  | sendFailed
deriving DecidableEq

/-- HTTP status code of each trigger outcome. -/
def trigStatus : TriggerResult → Nat
  | .triggered => 200
  | .unauthorized => 401
  | .sendFailed => 500

/-- Embedding of `trigger_daily_checkin` (src/app.py lines 217-260).
`cronSecret` is the environment variable `CRON_SECRET` as read by
`os.environ.get` (`none` when absent), `providedSecret` the `secret`
query parameter (`none` when absent); the source compares the two with
Python `!=`, under which two `None` values are equal.  The second
component lists the SMS send attempts. -/
def trigger_daily_checkin (cronSecret providedSecret : Option String)
    (smsOk : Bool) : TriggerResult × List String :=
  if providedSecret = cronSecret then
    if smsOk then (.triggered, [checkinMessage])
    else (.sendFailed, [checkinMessage])
  else (.unauthorized, [])


/-! ## Concrete environments for witnesses -/

/-- An environment where every external service works. -/
def envOk : Env :=
  ⟨true, false, false, [], "http://sheets/healthlog", false, "2024-01-02", "03:04:05"⟩

/-- An environment where the Google Sheets client cannot be built. -/
def envDown : Env :=
  ⟨false, false, false, [], "http://sheets/healthlog", false, "2024-01-02", "03:04:05"⟩

/-- A store holding the header row plus one single log entry. -/
def envOneEntry : Env :=
  ⟨true, false, false,
    [["Date", "Time", "Body", "Urgency"],
     ["2024-01-01", "10:00:00", "headache 5", "5"]],
    "http://sheets/healthlog", false, "2024-01-02", "03:04:05"⟩

/-! ## Range of the parser -/

/-- A successful head match yields a value between 1 and 10. -/
theorem headMatch_range {pw : Bool} {c : Char} {rest : List Char} {v : Nat}
    (h : headMatch pw c rest = some v) : 1 ≤ v ∧ v ≤ 10 := by
  unfold headMatch at h
  split at h
  · rename_i hc
    injection h with h'
    subst h'
    simp only [Bool.and_eq_true, isDigit19, decide_eq_true_eq] at hc
    omega
  · split at h
    · injection h with h'
      omega
    · exact absurd h (by simp)

/-- Every value returned by the scan lies between 1 and 10. -/
theorem scan_range (l : List Char) : ∀ (pw : Bool) (v : Nat),
    scanUrgency pw l = some v → 1 ≤ v ∧ v ≤ 10 := by
  induction l with
  | nil => intro pw v h; exact absurd h (by simp [scanUrgency])
  | cons c rest ih =>
    intro pw v h
    unfold scanUrgency at h
    cases hm : headMatch pw c rest with
    | some w =>
      rw [hm] at h
      injection h with h'
      subst h'
      exact headMatch_range hm
    | none =>
      rw [hm] at h
      exact ih _ _ h

/-- Parsed urgencies lie between 1 and 10. -/
theorem parse_urgency_range {body : String} {v : Nat}
    (h : parse_urgency_from_body body = some v) : 1 ≤ v ∧ v ≤ 10 :=
  scan_range body.toList false v h

/-! ## Claim C8 -/

/-- C8: any request to the daily check-in trigger whose provided secret
differs from the configured secret fails with Unauthorized (HTTP 401)
and performs no side effects: no SMS send is attempted. -/
theorem C8_unauthorized_no_effects (cron provided : Option String) (smsOk : Bool)
    (h : provided ≠ cron) :
    trigger_daily_checkin cron provided smsOk = (.unauthorized, []) ∧
    trigStatus .unauthorized = 401 := by
  refine ⟨?_, rfl⟩
  unfold trigger_daily_checkin
  rw [if_neg h]

/-- Witness for C8 at a concrete wrong secret. -/
theorem C8_unauthorized_no_effects_witness :
    trigger_daily_checkin (some "topsecret") (some "WRONG") true = (.unauthorized, []) ∧
    trigStatus .unauthorized = 401 :=
  C8_unauthorized_no_effects (some "topsecret") (some "WRONG") true (by decide)

/-! ## Claim C3 -/

/-- C3 counterexample: with the configured cron secret absent, a request
that also omits the secret query parameter compares equal (Python None
equals None), is authorized, and the check-in SMS is sent — so a missing
configured secret can result in an authorized trigger with an SMS. -/
theorem C3_missing_secret_triggers :
    trigger_daily_checkin none none true = (.triggered, [checkinMessage]) := rfl

/-- C3 amended: operations needing the Google credentials fail at call
time when the client cannot be built, and with the cron secret absent any
request supplying a secret value is rejected with no SMS; but a request
omitting the secret parameter is authorized and the check-in SMS send is
attempted, so a missing configured secret does not guarantee failure. -/
theorem C3_missing_config_behaviour :
    (∀ (s : String) (smsOk : Bool),
        trigger_daily_checkin none (some s) smsOk = (.unauthorized, [])) ∧
    (∀ smsOk : Bool, (trigger_daily_checkin none none smsOk).2 = [checkinMessage]) ∧
    (∀ env : Env, env.clientOk = false → append_to_google_sheets env = false) := by
  refine ⟨?_, ?_, ?_⟩
  · intro s smsOk
    unfold trigger_daily_checkin
    rw [if_neg (by simp)]
  · intro smsOk
    cases smsOk <;> rfl
  · intro env h
    simp [append_to_google_sheets, h]

/-- Witness for the amended C3 at concrete inputs. -/
theorem C3_missing_config_behaviour_witness :
    trigger_daily_checkin none (some "x") true = (.unauthorized, []) ∧
    append_to_google_sheets envDown = false :=
  ⟨C3_missing_config_behaviour.1 "x" true,
   C3_missing_config_behaviour.2.2 envDown rfl⟩

/-! ## Claim C9 -/

/-- C9: a webhook request whose payload is absent or lacks the sender or
body field fails with the invalid-payload error (HTTP 400) and performs
no side effects: no SMS attempt, no store write. -/
theorem C9_invalid_payload (env : Env) (p : Option Payload)
    (h : p = none ∨ ∃ q, p = some q ∧ (q.sender = none ∨ q.body = none)) :
    android_webhook env p = (.invalidPayload, ⟨[], []⟩) ∧
    statusCode .invalidPayload = 400 := by
  refine ⟨?_, rfl⟩
  rcases h with h | ⟨q, rfl, hq⟩
  · subst h; rfl
  · rcases q with ⟨qs, qb⟩
    cases qs with
    | none => cases qb <;> rfl
    | some s =>
      cases qb with
      | none => rfl
      | some b => simp at hq

/-- Witness for C9 at a payload missing the body field. -/
theorem C9_invalid_payload_witness :
    android_webhook envOk (some ⟨some "+15551234567", none⟩) =
      (.invalidPayload, ⟨[], []⟩) ∧
    statusCode .invalidPayload = 400 :=
  C9_invalid_payload envOk (some ⟨some "+15551234567", none⟩)
    (Or.inr ⟨⟨some "+15551234567", none⟩, rfl, Or.inr rfl⟩)

/-! ## Claim C10 -/

/-- C10: link requests, summary requests, and data-entry messages whose
urgency parsing fails never append a row to the store. -/
theorem C10_no_append (env : Env) (sender rawBody : String)
    (h : hasSubstr (pyLower (pyStrip rawBody)) "link" = true ∨
         hasSubstr (pyLower (pyStrip rawBody)) "summary" = true ∨
         parse_urgency_from_body (pyStrip rawBody) = none) :
    (android_webhook env (some ⟨some sender, some rawBody⟩)).2.appended = [] := by
  by_cases hl : hasSubstr (pyLower (pyStrip rawBody)) "link" = true
  · simp only [android_webhook, hl, if_true]
    split_ifs <;> rfl
  · by_cases hs : hasSubstr (pyLower (pyStrip rawBody)) "summary" = true
    · simp only [android_webhook, hl, hs, if_true, if_false]
      split_ifs <;> rfl
    · have hp : parse_urgency_from_body (pyStrip rawBody) = none := by
        rcases h with h | h | h
        · exact absurd h hl
        · exact absurd h hs
        · exact h
      simp only [android_webhook, hl, hs, hp, if_false]
      rfl

/-- Witness for C10 at a link message. -/
theorem C10_no_append_witness :
    (android_webhook envOk (some ⟨some "+15551234567", some "link please"⟩)).2.appended = [] :=
  C10_no_append envOk "+15551234567" "link please" (Or.inl (by decide))

/-! ## Claim C5 -/

/-- C5: classification is decided in strict order on the lowercased,
trimmed body — link first, then summary, then data entry — so any body
containing the substring link is handled as a link request (never as a
summary or data-entry request, in particular never appended), a body
containing summary but not link is a summary request, and the concrete
body consisting of the word link and the digit 5 is a link request. -/
theorem C5_classification_order (env : Env) (sender : String) (rawBody : String) :
    (hasSubstr (pyLower (pyStrip rawBody)) "link" = true →
      (android_webhook env (some ⟨some sender, some rawBody⟩)).1 = .linkSent ∧
      (android_webhook env (some ⟨some sender, some rawBody⟩)).2.appended = []) ∧
    (hasSubstr (pyLower (pyStrip rawBody)) "link" = false →
     hasSubstr (pyLower (pyStrip rawBody)) "summary" = true →
      (android_webhook env (some ⟨some sender, some rawBody⟩)).1 = .summarySent ∧
      (android_webhook env (some ⟨some sender, some rawBody⟩)).2.appended = []) ∧
    (android_webhook env (some ⟨some sender, some "link 5"⟩)).1 = .linkSent := by
  refine ⟨?_, ?_, ?_⟩
  · intro hl
    simp only [android_webhook, hl, if_true]
    constructor <;> (split_ifs <;> rfl)
  · intro hl hs
    simp only [android_webhook, hl, hs, if_true, if_false]
    constructor <;> (split_ifs <;> first | rfl | contradiction)
  · have hl : hasSubstr (pyLower (pyStrip "link 5")) "link" = true := by decide
    simp only [android_webhook, hl, if_true]
    split_ifs <;> rfl

/-- Witness for C5 at the body containing both link and a number. -/
theorem C5_classification_order_witness :
    (android_webhook envOk (some ⟨some "+15551234567", some "link 5"⟩)).1 = .linkSent :=
  (C5_classification_order envOk "+15551234567" "anything").2.2

/-! ## Claim C6 -/

/-- C6: a store failure never causes a link or summary request to fail
at the HTTP level: when the client cannot be built or the store access
raises, the handler sends the fixed failure notice and still answers
link sent or summary sent with status 200; when only the row read inside
the last-rows helper raises, the summary branch still answers with
status 200, sending the fixed no-entries notice. -/
theorem C6_store_failure_swallowed (env : Env) (sender rawBody : String) :
    ((env.clientOk = false ∨ env.openThrows = true) →
     hasSubstr (pyLower (pyStrip rawBody)) "link" = true →
      android_webhook env (some ⟨some sender, some rawBody⟩) =
        (.linkSent, ⟨["Failed to retrieve sheet link."], []⟩) ∧
      statusCode .linkSent = 200) ∧
    ((env.clientOk = false ∨ env.openThrows = true) →
     hasSubstr (pyLower (pyStrip rawBody)) "link" = false →
     hasSubstr (pyLower (pyStrip rawBody)) "summary" = true →
      android_webhook env (some ⟨some sender, some rawBody⟩) =
        (.summarySent, ⟨["Failed to retrieve summary."], []⟩) ∧
      statusCode .summarySent = 200) ∧
    (env.clientOk = true → env.openThrows = false → env.readThrows = true →
     hasSubstr (pyLower (pyStrip rawBody)) "link" = false →
     hasSubstr (pyLower (pyStrip rawBody)) "summary" = true →
      android_webhook env (some ⟨some sender, some rawBody⟩) =
        (.summarySent, ⟨["No entries found in Health Log."], []⟩) ∧
      statusCode .summarySent = 200) := by
  refine ⟨?_, ?_, ?_⟩
  · intro hfail hl
    refine ⟨?_, rfl⟩
    simp only [android_webhook, hl, if_true]
    rcases hfail with hf | hf <;> simp [hf]
  · intro hfail hl hs
    refine ⟨?_, rfl⟩
    simp only [android_webhook, hl, hs, if_true, if_false]
    rcases hfail with hf | hf <;> simp [hf]
  · intro hc ho hr hl hs
    refine ⟨?_, rfl⟩
    simp only [android_webhook, hl, hs, if_true, if_false]
    simp [hc, ho, hr, get_last_rows]

/-- Witness for C6 with the client down and a summary body. -/
theorem C6_store_failure_swallowed_witness :
    android_webhook envDown (some ⟨some "+15551234567", some "summary"⟩) =
      (.summarySent, ⟨["Failed to retrieve summary."], []⟩) ∧
    statusCode .summarySent = 200 :=
  (C6_store_failure_swallowed envDown "+15551234567" "summary").2.1
    (Or.inl rfl) (by decide) (by decide)

/-! ## Claim C7 -/

/-- C7: a data-entry message with a parsed urgency whose store append
fails yields the failure SMS and the failed-to-log error with HTTP 500,
unlike the link and summary outcomes whose status is 200. -/
theorem C7_append_failure (env : Env) (sender rawBody : String) (n : Nat)
    (h1 : hasSubstr (pyLower (pyStrip rawBody)) "link" = false)
    (h2 : hasSubstr (pyLower (pyStrip rawBody)) "summary" = false)
    (h3 : parse_urgency_from_body (pyStrip rawBody) = some n)
    (h4 : append_to_google_sheets env = false) :
    android_webhook env (some ⟨some sender, some rawBody⟩) =
      (.failedLog, ⟨["Failed to log entry for " ++ sender ++ ". ❌"], []⟩) ∧
    statusCode .failedLog = 500 ∧
    statusCode .linkSent = 200 ∧ statusCode .summarySent = 200 := by
  refine ⟨?_, rfl, rfl, rfl⟩
  simp only [android_webhook, h1, h2, h3, h4, if_false]
  split_ifs <;> first | rfl | contradiction

/-- Witness for C7 with the client down and a plain data message. -/
theorem C7_append_failure_witness :
    android_webhook envDown (some ⟨some "+15551234567", some "pain level 7 today"⟩) =
      (.failedLog, ⟨["Failed to log entry for +15551234567. ❌"], []⟩) ∧
    statusCode .failedLog = 500 ∧
    statusCode .linkSent = 200 ∧ statusCode .summarySent = 200 :=
  C7_append_failure envDown "+15551234567" "pain level 7 today" 7
    (by decide) (by decide) (by decide) rfl

/-! ## Claim C4 -/

/-- C4: a data-entry message (neither link nor summary in the trimmed
lowercased body) that parses to urgency n, when the store append
succeeds, appends exactly one 4-field row — current local date, current
local time, trimmed body, the integer n — sends exactly one
acknowledgement SMS, and responds logged with urgency n; moreover n lies
in 1..10. -/
theorem C4_data_entry_success (env : Env) (sender rawBody : String) (n : Nat)
    (h1 : hasSubstr (pyLower (pyStrip rawBody)) "link" = false)
    (h2 : hasSubstr (pyLower (pyStrip rawBody)) "summary" = false)
    (h3 : parse_urgency_from_body (pyStrip rawBody) = some n)
    (h4 : append_to_google_sheets env = true) :
    android_webhook env (some ⟨some sender, some rawBody⟩) =
      (.logged n,
        ⟨["Logged for " ++ sender ++ ". ✅"],
          [[.str env.dateIso, .str env.timeStr, .str (pyStrip rawBody), .num n]]⟩) ∧
    1 ≤ n ∧ n ≤ 10 := by
  refine ⟨?_, parse_urgency_range h3⟩
  simp only [android_webhook, h1, h2, h3, h4, if_true, if_false]
  split_ifs <;> first | rfl | contradiction

/-- Witness for C4 with a working store and the urgency 7. -/
theorem C4_data_entry_success_witness :
    android_webhook envOk (some ⟨some "+15551234567", some " pain level 7 today "⟩) =
      (.logged 7,
        ⟨["Logged for +15551234567. ✅"],
          [[.str "2024-01-02", .str "03:04:05", .str "pain level 7 today", .num 7]]⟩) ∧
    1 ≤ 7 ∧ 7 ≤ 10 := by
  have h := C4_data_entry_success envOk "+15551234567" " pain level 7 today " 7
    (by decide) (by decide) (by decide) rfl
  simpa using h

/-! ## Claim C2 -/

/-- C2 evaluation at the failing input: with one entry in the store, a
summary request answers with HTTP success but the SMS lists the header
row as entry 1 and the sole real entry as entry 2, because
`get_last_rows` slices the last three of all rows including the header
when the sheet holds fewer than three data rows — contradicting its own
docstring, which promises the last data rows excluding the header. -/
theorem C2_header_leak :
    android_webhook envOneEntry (some ⟨some "+15551234567", some "summary"⟩) =
      (.summarySent,
        ⟨["Last 3 entries:\n1. Date Time - Urgency: Urgency\n" ++
            "2. 2024-01-01 10:00:00 - Urgency: 5"], []⟩) ∧
    get_last_rows false envOneEntry.allValues 3 = envOneEntry.allValues := by
  constructor <;> rfl

/-! ## Claim C1: the scan returns exactly the first whole-number token -/

/-- Index lookup on the empty list. -/
theorem nth_nil (i : Nat) : nth [] i = none := rfl

/-- Index lookup at the head. -/
theorem nth_zero (c : Char) (rest : List Char) : nth (c :: rest) 0 = some c := rfl

/-- Index lookup past the head. -/
theorem nth_succ (c : Char) (rest : List Char) (i : Nat) :
    nth (c :: rest) (i + 1) = nth rest i := rfl

/-- Word-class of the head position. -/
theorem wordAt_zero (c : Char) (rest : List Char) :
    wordAt (c :: rest) 0 = isWordChar c := rfl

/-- Word-class past the head. -/
theorem wordAt_succ (c : Char) (rest : List Char) (i : Nat) :
    wordAt (c :: rest) (i + 1) = wordAt rest i := rfl

/-- Boundary before the first position. -/
theorem prevOk_zero (pw : Bool) (l : List Char) : prevOk pw l 0 = !pw := rfl

/-- Boundary before a later position. -/
theorem prevOk_succ (pw : Bool) (l : List Char) (j : Nat) :
    prevOk pw l (j + 1) = !wordAt l j := rfl

/-- The lookahead boundary test agrees with the positional word test. -/
theorem headNonWord_eq (rest : List Char) : headNonWord rest = !wordAt rest 0 := by
  cases rest <;> rfl

/-- No token exists in the empty text. -/
theorem tokAt_nil (pw : Bool) (i v : Nat) : tokAt pw [] i v = false := by
  unfold tokAt
  split
  · rfl
  · rfl

/-- Shifting a token position over the head character turns the carried
word-class into the class of that character. -/
theorem tokAt_shift (pw : Bool) (c : Char) (rest : List Char) (i v : Nat) :
    tokAt pw (c :: rest) (i + 1) v = tokAt (isWordChar c) rest i v := by
  cases i <;> rfl

/-- A successful head match is a token at position 0. -/
theorem headMatch_some_tok {pw : Bool} {c : Char} {rest : List Char} {v : Nat}
    (h : headMatch pw c rest = some v) : tokAt pw (c :: rest) 0 v = true := by
  unfold headMatch at h
  split at h
  · rename_i hc
    injection h with h'
    subst h'
    simp only [Bool.and_eq_true, Bool.not_eq_true'] at hc
    obtain ⟨⟨hpw, hdig⟩, hnw⟩ := hc
    have hbound : 49 ≤ c.toNat ∧ c.toNat ≤ 57 := by
      simpa [isDigit19] using hdig
    unfold tokAt
    rw [if_neg (by simp only [beq_iff_eq]; omega)]
    show (digitTok (some c) (c.toNat - 48) && !pw && !wordAt rest 0) = true
    have hw : (!wordAt rest 0) = true := by
      rw [← headNonWord_eq]; exact hnw
    simp [digitTok, hdig, hpw, hw]
  · split at h
    · rename_i hc2
      injection h with h'
      subst h'
      simp only [Bool.and_eq_true, Bool.not_eq_true'] at hc2
      obtain ⟨⟨hpw, hc1⟩, hn0⟩ := hc2
      have hc1' : c = '1' := by simpa using hc1
      subst hc1'
      cases rest with
      | nil => simp [next0] at hn0
      | cons d r2 =>
        simp only [next0, Bool.and_eq_true] at hn0
        obtain ⟨hd, hnw2⟩ := hn0
        have hd' : d = '0' := by simpa using hd
        subst hd'
        unfold tokAt
        rw [if_pos (by decide)]
        show ((some '1' == some '1') && (some '0' == some '0') && !pw &&
          !wordAt r2 0) = true
        have hw : (!wordAt r2 0) = true := by
          rw [← headNonWord_eq]; exact hnw2
        simp [hpw, hw]
    · exact absurd h (by simp)

/-- A token at position 0 forces the head match to succeed with its
value. -/
theorem tok0_headMatch {pw : Bool} {c : Char} {rest : List Char} {v : Nat}
    (h : tokAt pw (c :: rest) 0 v = true) : headMatch pw c rest = some v := by
  by_cases h10 : v = 10
  · subst h10
    unfold tokAt at h
    rw [if_pos (by decide)] at h
    simp only [nth_zero, nth_succ, prevOk_zero, Bool.and_eq_true, beq_iff_eq,
      Option.some.injEq, Bool.not_eq_true'] at h
    obtain ⟨⟨⟨hc, h0⟩, hpw⟩, hw2⟩ := h
    subst hc
    cases rest with
    | nil => rw [nth_nil] at h0; exact absurd h0 (by simp)
    | cons d r2 =>
      rw [nth_zero] at h0
      injection h0 with h0'
      subst h0'
      have e2 : wordAt ('1' :: '0' :: r2) (0 + 2) = wordAt r2 0 := rfl
      rw [e2] at hw2
      have hc1 : headNonWord ('0' :: r2) = false := rfl
      have hn0 : next0 ('0' :: r2) = true := by
        simp [next0, headNonWord_eq, hw2]
      unfold headMatch
      rw [if_neg (by simp [hc1]), if_pos (by simp [hpw, hn0])]
  · unfold tokAt at h
    rw [if_neg (by simp [h10])] at h
    simp only [nth_zero, prevOk_zero, Bool.and_eq_true, Bool.not_eq_true'] at h
    obtain ⟨⟨hd, hpw⟩, hw1⟩ := h
    have e1 : wordAt (c :: rest) (0 + 1) = wordAt rest 0 := rfl
    rw [e1] at hw1
    simp only [digitTok, Bool.and_eq_true, beq_iff_eq] at hd
    obtain ⟨hdig, hv⟩ := hd
    unfold headMatch
    rw [if_pos (by simp [hpw, hdig, headNonWord_eq, hw1])]
    rw [hv]

/-- At a fixed position at most one token value is possible. -/
theorem tok_unique {pw : Bool} {l : List Char} {i v w : Nat}
    (hv : tokAt pw l i v = true) (hw : tokAt pw l i w = true) : v = w := by
  by_cases hv10 : v = 10 <;> by_cases hw10 : w = 10
  · rw [hv10, hw10]
  · exfalso
    subst hv10
    unfold tokAt at hv hw
    rw [if_pos (by decide)] at hv
    rw [if_neg (by simp [hw10])] at hw
    simp only [Bool.and_eq_true, beq_iff_eq, Bool.not_eq_true'] at hv hw
    obtain ⟨⟨⟨-, h0⟩, -⟩, -⟩ := hv
    obtain ⟨-, hw1⟩ := hw
    rw [show wordAt l (i + 1) = (match nth l (i + 1) with
      | some c => isWordChar c
      | none => false) from rfl, h0] at hw1
    exact absurd hw1 (by simp [isWordChar])
  · exfalso
    subst hw10
    unfold tokAt at hv hw
    rw [if_pos (by decide)] at hw
    rw [if_neg (by simp [hv10])] at hv
    simp only [Bool.and_eq_true, beq_iff_eq, Bool.not_eq_true'] at hv hw
    obtain ⟨⟨⟨-, h0⟩, -⟩, -⟩ := hw
    obtain ⟨-, hv1⟩ := hv
    rw [show wordAt l (i + 1) = (match nth l (i + 1) with
      | some c => isWordChar c
      | none => false) from rfl, h0] at hv1
    exact absurd hv1 (by simp [isWordChar])
  · unfold tokAt at hv hw
    rw [if_neg (by simp [hv10])] at hv
    rw [if_neg (by simp [hw10])] at hw
    simp only [Bool.and_eq_true] at hv hw
    obtain ⟨⟨hdv, -⟩, -⟩ := hv
    obtain ⟨⟨hdw, -⟩, -⟩ := hw
    cases hn : nth l i with
    | none => rw [hn] at hdv; exact absurd hdv (by simp [digitTok])
    | some c =>
      rw [hn] at hdv hdw
      simp only [digitTok, Bool.and_eq_true, beq_iff_eq] at hdv hdw
      omega

/-- If the scan fails there is no token anywhere in the text. -/
theorem scan_none_tok (l : List Char) : ∀ pw, scanUrgency pw l = none →
    ∀ i v, tokAt pw l i v = false := by
  induction l with
  | nil => intro pw _ i v; exact tokAt_nil pw i v
  | cons c rest ih =>
    intro pw h i v
    unfold scanUrgency at h
    cases hm : headMatch pw c rest with
    | some w => rw [hm] at h; exact absurd h (by simp)
    | none =>
      rw [hm] at h
      cases i with
      | zero =>
        cases htok : tokAt pw (c :: rest) 0 v with
        | false => rfl
        | true =>
          have := tok0_headMatch htok
          rw [hm] at this
          exact absurd this (by simp)
      | succ j =>
        rw [tokAt_shift]
        exact ih (isWordChar c) h j v

/-- A successful scan returns the value of a token that is leftmost
among all tokens of the text. -/
theorem scan_some_tok (l : List Char) : ∀ pw v, scanUrgency pw l = some v →
    ∃ i, tokAt pw l i v = true ∧ ∀ j w, tokAt pw l j w = true → i ≤ j := by
  induction l with
  | nil => intro pw v h; exact absurd h (by simp [scanUrgency])
  | cons c rest ih =>
    intro pw v h
    unfold scanUrgency at h
    cases hm : headMatch pw c rest with
    | some w =>
      rw [hm] at h
      injection h with h'
      subst h'
      exact ⟨0, headMatch_some_tok hm, fun j w _ => Nat.zero_le j⟩
    | none =>
      rw [hm] at h
      obtain ⟨i, hi, hmin⟩ := ih (isWordChar c) v h
      refine ⟨i + 1, by rw [tokAt_shift]; exact hi, ?_⟩
      intro j w hj
      cases j with
      | zero =>
        have := tok0_headMatch hj
        rw [hm] at this
        exact absurd this (by simp)
      | succ j' =>
        rw [tokAt_shift] at hj
        exact Nat.succ_le_succ (hmin j' w hj)

/-- A leftmost token forces the scan to return its value. -/
theorem tok_scan_some (l : List Char) (pw : Bool) (i v : Nat)
    (hi : tokAt pw l i v = true)
    (hmin : ∀ j w, tokAt pw l j w = true → i ≤ j) :
    scanUrgency pw l = some v := by
  cases h : scanUrgency pw l with
  | none =>
    have := scan_none_tok l pw h i v
    rw [this] at hi
    exact absurd hi (by simp)
  | some w =>
    obtain ⟨i2, hi2, hmin2⟩ := scan_some_tok l pw w h
    have hii : i = i2 := Nat.le_antisymm (hmin i2 w hi2) (hmin2 i v hi)
    subst hii
    rw [tok_unique hi hi2]

/-- C1: urgency parsing returns the value of the first left-to-right
whole-number token 1..10 bounded by non-word boundaries on both sides,
and none exactly when no such token exists; in particular the body with
the standalone tokens 10 and 5 parses to 10 and the body whose only
number is 100 parses to none. -/
theorem C1_parse_first_token :
    (∀ (body : String) (v : Nat),
        parse_urgency_from_body body = some v ↔
          ∃ i, specTokenAt body.toList i v = true ∧
            ∀ j w, specTokenAt body.toList j w = true → i ≤ j) ∧
    (∀ body : String,
        parse_urgency_from_body body = none ↔
          ∀ i v, specTokenAt body.toList i v = false) ∧
    parse_urgency_from_body "abc 10 def 5" = some 10 ∧
    parse_urgency_from_body "call me at 100" = none := by
  refine ⟨?_, ?_, by decide, by decide⟩
  · intro body v
    constructor
    · exact scan_some_tok _ false v
    · rintro ⟨i, hi, hmin⟩
      exact tok_scan_some _ false i v hi hmin
  · intro body
    constructor
    · exact scan_none_tok _ false
    · intro hall
      cases h : scanUrgency false body.toList with
      | none => show scanUrgency false body.toList = none; exact h
      | some w =>
        obtain ⟨i, hi, -⟩ := scan_some_tok _ false w h
        have hspec : specTokenAt body.toList i w = true := hi
        rw [hall i w] at hspec
        exact absurd hspec (by simp)

/-- Witness for C1 at the two concrete bodies of the claim. -/
theorem C1_parse_first_token_witness :
    parse_urgency_from_body "abc 10 def 5" = some 10 ∧
    parse_urgency_from_body "call me at 100" = none :=
  ⟨C1_parse_first_token.2.2.1, C1_parse_first_token.2.2.2⟩
